import Mathlib

/-!
# Verification development for perfx-locust

Shallow embedding of the perfx-locust repository (a Locust-based load-test
runner) into Lean 4, together with theorems settling the frozen claims about
its specification.

Embedded components:

* `src/perfx_locust/validator.py` — `ArgumentValidator` (`validate`,
  `_validate_type`, `_get_param_value`, `_normalize_key`).
* `src/perfx_locust/cli.py` — `parse_extra_args`.
* `src/perfx_locust/runner.py` — `PerfXRunner._parse_run_time`, the request
  event listener in `_attach_event_listeners`, the stats-reporter loop in
  `_start_stats_reporter`, and the control flow of `PerfXRunner.run`.
* `src/perfx_locust/influxdb_reporter.py` — the error-field handling of
  `InfluxDBReporter.write_request`.

Python dictionaries are modelled as insertion-ordered association lists with
overwrite-on-insert; machine integers as `Int`; fallible code by `Option` /
`Except`.
-/

/-! ## Python value model

Values that reach `ArgumentValidator.validate` through `parse_extra_args`
are either strings (`--key value`, `--key=value`) or the Python boolean
`True` (bare `--flag`).  `PyVal` models exactly these.
-/

/-- A Python value supplied for a parameter: a `str` or a `bool`.
`parse_extra_args` in `cli.py` produces only these two shapes. -/
inductive PyVal where
  | str (s : String)
  | bool (b : Bool)
  deriving DecidableEq, Repr

/-- Python `str(value)` on a `PyVal`.  `str(True) = "True"`,
`str(False) = "False"`; a string maps to itself. -/
def pyStr : PyVal → String
  | .str s => s
  | .bool b => if b then "True" else "False"

/-- Python dictionary over string keys, as an insertion-ordered association
list.  `dictInsert` models `d[k] = v`: overwrite in place when the key
exists, else append. -/
def dictInsert (d : List (String × α)) (k : String) (v : α) :
    List (String × α) :=
  match d with
  | [] => [(k, v)]
  | (k', v') :: rest =>
    if k' = k then (k', v) :: rest else (k', v') :: dictInsert rest k v

/-- Python `k in d` / `d[k]` lookup on the association-list dictionary. -/
def dictLookup (d : List (String × α)) (k : String) : Option α :=
  match d with
  | [] => none
  | (k', v) :: rest => if k' = k then some v else dictLookup rest k

/-! ## Python string primitives

The Python string methods used by the sources (`strip`, `lower`,
`replace`, `endswith`, slicing) are modelled directly on the character
list of a `String`, restricted to the ASCII behaviour the repository
exercises.  (Lean's own `String.trim`/`String.toLower` are avoided because
they do not reduce inside the kernel.) -/

/-- ASCII lowercasing of one character, as Python `str.lower` acts on
ASCII input. -/
def asciiLower (c : Char) : Char :=
  if 'A' ≤ c && c ≤ 'Z' then Char.ofNat (c.toNat + 32) else c

/-- Python `str.lower` on ASCII strings. -/
def pyLower (s : String) : String :=
  ⟨s.data.map asciiLower⟩

/-- The ASCII whitespace characters stripped by Python `str.strip()`. -/
def pyIsSpace (c : Char) : Bool :=
  c = ' ' || c = '\t' || c = '\n' || c = '\r' || c = '\x0b' || c = '\x0c'

/-- Python `str.strip()`: drop leading and trailing whitespace. -/
def pyStrip (s : String) : String :=
  ⟨((s.data.dropWhile pyIsSpace).reverse.dropWhile pyIsSpace).reverse⟩

/-- Python slice `s[:n]` for `n ≥ 0` (character-based truncation). -/
def pyTruncate (s : String) (n : Nat) : String :=
  ⟨s.data.take n⟩

/-- Python slice `s[:-1]`: the string without its last character. -/
def pyDropLast (s : String) : String :=
  ⟨s.data.dropLast⟩

/-- Python `s.endswith(c)` for a single-character suffix. -/
def endsWithChar (s : String) (c : Char) : Bool :=
  s.data.getLast? = some c

/-- Whether a CLI token starts with `--` (Python `arg.startswith("--")`). -/
def dashDash (s : String) : Bool :=
  match s.data with
  | '-' :: '-' :: _ => true
  | _ => false

/-! ## Python numeric-literal parsing

`_validate_type` uses Python `int(value)` / `float(value)` purely as
validity checks (the resolved value is `str(value)`, not the parsed
number), and `_parse_run_time` uses `int` for its value.  The models below
cover CPython's accepted ASCII syntax: optional surrounding whitespace, an
optional sign, and digit groups that may be separated by single
underscores. -/

/-- Digit tail of a Python integer literal: a possibly empty sequence of
digits in which a single underscore may appear between two digits. -/
def pyDigitsTail : List Char → Bool
  | [] => true
  | '_' :: c :: rest => c.isDigit && pyDigitsTail rest
  | c :: rest => c.isDigit && pyDigitsTail rest

/-- Digit body of a Python integer literal: nonempty, starts with a digit,
single underscores allowed between digits. -/
def pyDigitsOK : List Char → Bool
  | [] => false
  | c :: rest => c.isDigit && pyDigitsTail rest

/-- Numeric value of a digit list, skipping underscore separators. -/
def pyDigitsVal (cs : List Char) : Int :=
  (cs.filter (fun c => c ≠ '_')).foldl
    (fun acc c => acc * 10 + (Int.ofNat (c.toNat - 48))) 0

/-- Model of Python `int(s)` for an ASCII string `s`: strip surrounding
whitespace, accept an optional sign followed by underscore-separated
digits; `none` models a raised `ValueError`. -/
def pyIntParse (s : String) : Option Int :=
  let cs := (pyStrip s).data
  match cs with
  | '+' :: rest => if pyDigitsOK rest then some (pyDigitsVal rest) else none
  | '-' :: rest => if pyDigitsOK rest then some (-(pyDigitsVal rest)) else none
  | _ => if pyDigitsOK cs then some (pyDigitsVal cs) else none

/-- Exponent part of a Python float literal (after the `e`/`E`):
an optional sign followed by underscore-separated digits. -/
def pyExpOK : List Char → Bool
  | '+' :: rest => pyDigitsOK rest
  | '-' :: rest => pyDigitsOK rest
  | cs => pyDigitsOK cs

/-- Splits a character list at the first occurrence of one of the given
characters, returning the part before and the part after (without the
separator), or `none` when no such character occurs. -/
def splitAtFirst (seps : List Char) : List Char → Option (List Char × List Char)
  | [] => none
  | c :: rest =>
    if c ∈ seps then some ([], rest)
    else match splitAtFirst seps rest with
      | some (pre, post) => some (c :: pre, post)
      | none => none

/-- Mantissa of a Python float literal: `digits`, `digits.`, `digits.digits`
or `.digits` (digit groups underscore-separated). -/
def pyMantissaOK (cs : List Char) : Bool :=
  match splitAtFirst ['.'] cs with
  | none => pyDigitsOK cs
  | some (intPart, fracPart) =>
    match intPart, fracPart with
    | [], [] => false
    | [], f => pyDigitsOK f
    | i, [] => pyDigitsOK i
    | i, f => pyDigitsOK i && pyDigitsOK f

/-- Model of the validity of Python `float(s)` for an ASCII string `s`:
strip whitespace, optional sign, then `inf`/`infinity`/`nan`
(case-insensitive) or a mantissa with optional exponent.  Only validity is
modelled because `_validate_type` discards the parsed value. -/
def pyFloatValid (s : String) : Bool :=
  let t := (pyLower (pyStrip s)).data
  let body :=
    match t with
    | '+' :: rest => rest
    | '-' :: rest => rest
    | _ => t
  if body = "inf".data || body = "infinity".data || body = "nan".data then
    true
  else
    match splitAtFirst ['e'] body with
    | none => pyMantissaOK body
    | some (mant, expo) => pyMantissaOK mant && pyExpOK expo

/-! ## Data model (`models.py`) -/

/-- `ArgumentParameter` from `models.py`: one schema entry.  The `type`
field carries the literal tag `"string" | "int" | "float" | "bool" |
"choice"`. -/
structure ArgumentParameter where
  name : String
  type : String := "string"
  required : Bool := false
  default : Option String := none
  description : Option String := none
  choices : Option (List String) := none
  deriving DecidableEq, Repr

/-- `ValidationError` from `models.py`. -/
structure ValidationError where
  parameter : String
  message : String
  deriving DecidableEq, Repr

/-- `ValidationResult` from `models.py`.  `resolved_arguments` is the
string-keyed, string-valued resolved map. -/
structure ValidationResult where
  valid : Bool
  errors : List ValidationError
  resolved_arguments : List (String × String)
  deriving DecidableEq, Repr

/-! ## ArgumentValidator (`validator.py`) -/

/-- `ArgumentValidator._normalize_key` and the `key.replace("-", "_")`
calls in `cli.py`: hyphens become underscores (a single-character
`str.replace` is a character map). -/
def normalize_key (key : String) : String :=
  ⟨key.data.map (fun c => if c = '-' then '_' else c)⟩

/-- `ArgumentValidator._get_param_value`: look the schema name up in the
provided arguments, first verbatim, then with hyphens normalized to
underscores. -/
def get_param_value (provided_args : List (String × PyVal))
    (param_name : String) : Option PyVal :=
  match dictLookup provided_args param_name with
  | some v => some v
  | none => dictLookup provided_args (normalize_key param_name)

/-- Single-quoted, comma-separated rendering of a string list, the body
of its Python `repr` (e.g. `'a', 'b'`). -/
def joinQuoted : List String → String
  | [] => ""
  | [x] => "\x27" ++ x ++ "\x27"
  | x :: rest => "\x27" ++ x ++ "\x27, " ++ joinQuoted rest

/-- Python `repr` of a nonempty list of strings (single-quoted elements,
comma-separated), as the f-string `f"... {param.choices}"` prints it. -/
def pyListRepr (xs : List String) : String :=
  "[" ++ joinQuoted xs ++ "]"

/-- The error message `f"参数 '{param.name}' 是必填的"`. -/
def msgRequired (name : String) : String :=
  "参数 \x27" ++ name ++ "\x27 是必填的"

/-- The error message `f"参数 '{param.name}' 类型错误，期望 {param.type}"`. -/
def msgType (name ty : String) : String :=
  "参数 \x27" ++ name ++ "\x27 类型错误，期望 " ++ ty

/-- The error message
`f"参数 '{param.name}' 的值必须是以下之一: {param.choices}"`. -/
def msgChoice (name : String) (choices : List String) : String :=
  "参数 \x27" ++ name ++ "\x27 的值必须是以下之一: " ++ pyListRepr choices

/-- `ArgumentValidator._validate_type`: validate and normalize one supplied
value against the declared type, returning the resolved string or `none`
on a type error (the source returns `None` after catching
`ValueError`/`TypeError`).

* `string`/`choice`: `str(value)` passes through.
* `int`/`float`: `int(value)` / `float(value)` must succeed (a Python
  `bool` always parses), but the resolved value is `str(value)`.
* `bool`: a Python `bool` resolves to `str(value).lower()`; a string
  resolves to `"true"` / `"false"` through the case-insensitive
  `{true,1,yes}` / `{false,0,no}` sets, anything else is a type error. -/
def validate_type (param : ArgumentParameter) (value : PyVal) :
    Option String :=
  if param.type = "string" || param.type = "choice" then
    some (pyStr value)
  else if param.type = "int" then
    match value with
    | .bool _ => some (pyStr value)
    | .str s => if (pyIntParse s).isSome then some s else none
  else if param.type = "float" then
    match value with
    | .bool _ => some (pyStr value)
    | .str s => if pyFloatValid s then some s else none
  else if param.type = "bool" then
    match value with
    | .bool b => some (if b then "true" else "false")
    | .str s =>
      if pyLower s = "true" || pyLower s = "1" || pyLower s = "yes" then
        some "true"
      else if pyLower s = "false" || pyLower s = "0" || pyLower s = "no" then
        some "false"
      else none
  else
    some (pyStr value)

/-- Python truthiness of `param.choices : Optional[List[str]]`:
`None` and the empty list are falsy. -/
def choicesTruthy : Option (List String) → Bool
  | none => false
  | some cs => !cs.isEmpty

/-- One iteration of the `for param in self.parameters` loop body of
`ArgumentValidator.validate`, acting on the `(errors, resolved)`
accumulator. -/
def validateStep (provided_args : List (String × PyVal))
    (acc : List ValidationError × List (String × String))
    (param : ArgumentParameter) :
    List ValidationError × List (String × String) :=
  let (errors, resolved) := acc
  match get_param_value provided_args param.name with
  | none =>
    -- `value is None`: required parameters fall back to the default or
    -- record an error; optional parameters fall back to the default or
    -- are omitted.
    match param.default with
    | some d => (errors, dictInsert resolved param.name d)
    | none =>
      if param.required then
        (errors ++ [⟨param.name, msgRequired param.name⟩], resolved)
      else
        (errors, resolved)
  | some value =>
    match validate_type param value with
    | none =>
      (errors ++ [⟨param.name, msgType param.name param.type⟩], resolved)
    | some validated_value =>
      if param.type = "choice" && choicesTruthy param.choices
          && !(param.choices.getD []).contains validated_value then
        (errors ++ [⟨param.name, msgChoice param.name (param.choices.getD [])⟩],
         resolved)
      else
        (errors, dictInsert resolved param.name validated_value)

/-- `ArgumentValidator.validate`: fold the per-parameter loop over the
schema in order and package the `ValidationResult`
(`valid = len(errors) == 0`). -/
def validate (parameters : List ArgumentParameter)
    (provided_args : List (String × PyVal)) : ValidationResult :=
  let (errors, resolved) :=
    parameters.foldl (validateStep provided_args) ([], [])
  { valid := errors.isEmpty
    errors := errors
    resolved_arguments := resolved }

/-- The effect of one loop iteration of `validate` on the resolved map
alone, with error recording stripped out. -/
def resolveStep (provided_args : List (String × PyVal))
    (resolved : List (String × String)) (param : ArgumentParameter) :
    List (String × String) :=
  match get_param_value provided_args param.name with
  | none =>
    match param.default with
    | some d => dictInsert resolved param.name d
    | none => resolved
  | some value =>
    match validate_type param value with
    | none => resolved
    | some validated_value =>
      if param.type = "choice" && choicesTruthy param.choices
          && !(param.choices.getD []).contains validated_value then
        resolved
      else
        dictInsert resolved param.name validated_value

/-- The resolved-argument computation of `validate` on its own.  Used to
state that `resolved_arguments` is populated independently of whether
errors occur elsewhere in the schema. -/
def resolveArgsOnly (parameters : List ArgumentParameter)
    (provided_args : List (String × PyVal)) : List (String × String) :=
  parameters.foldl (resolveStep provided_args) []

/-! ## CLI extra-argument parsing (`cli.py`) -/

/-- `parse_extra_args` from `cli.py`: walk the raw argument tuple, keeping
`--key=value`, `--key value` and bare `--flag` forms; keys have hyphens
replaced by underscores; bare flags store the Python boolean `True`;
tokens not starting with `--` are skipped. -/
def parse_extra_args_aux : List String → List (String × PyVal) →
    List (String × PyVal)
  | [], result => result
  | [arg], result =>
    if dashDash arg then
      let body : String := ⟨arg.data.drop 2⟩
      match splitAtFirst ['='] body.data with
      | some (key, value) =>
        dictInsert result (normalize_key ⟨key⟩) (.str ⟨value⟩)
      | none =>
        -- last token, no value can follow: `--flag` boolean form
        dictInsert result (normalize_key body) (.bool true)
    else result
  | arg :: next :: rest, result =>
    if dashDash arg then
      let body : String := ⟨arg.data.drop 2⟩
      match splitAtFirst ['='] body.data with
      | some (key, value) =>
        parse_extra_args_aux (next :: rest)
          (dictInsert result (normalize_key ⟨key⟩) (.str ⟨value⟩))
      | none =>
        if !dashDash next then
          -- `--key value` form consumes the following token
          parse_extra_args_aux rest
            (dictInsert result (normalize_key body) (.str next))
        else
          parse_extra_args_aux (next :: rest)
            (dictInsert result (normalize_key body) (.bool true))
    else parse_extra_args_aux (next :: rest) result

/-- `parse_extra_args` entry point on the raw argument list. -/
def parse_extra_args (args : List String) : List (String × PyVal) :=
  parse_extra_args_aux args []

/-! ## Run-time duration parsing (`runner.py`, `_parse_run_time`) -/

/-- `PerfXRunner._parse_run_time`: `None` or the empty string (both falsy)
mean unbounded; otherwise strip and lowercase, interpret an `s`/`m`/`h`
suffix as seconds/minutes/hours, or a bare integer as seconds.  In the
suffixed branches `int(...)` is called outside any `try`, so a bad prefix
raises `ValueError` (modelled as `.error ()`); only the suffixless branch
catches `ValueError` and returns `None` after a logged warning. -/
def parse_run_time (run_time : Option String) : Except Unit (Option Int) :=
  match run_time with
  | none => .ok none
  | some rt =>
    if rt = "" then .ok none
    else
      let time_str := pyLower (pyStrip rt)
      if endsWithChar time_str 's' then
        match pyIntParse (pyDropLast time_str) with
        | some n => .ok (some n)
        | none => .error ()
      else if endsWithChar time_str 'm' then
        match pyIntParse (pyDropLast time_str) with
        | some n => .ok (some (n * 60))
        | none => .error ()
      else if endsWithChar time_str 'h' then
        match pyIntParse (pyDropLast time_str) with
        | some n => .ok (some (n * 3600))
        | none => .error ()
      else
        match pyIntParse time_str with
        | some n => .ok (some n)
        | none => .ok none

/-! ## Request-event translation (`runner.py`, `_attach_event_listeners`)

The `events.request` listener translates a native Locust request event into
the dictionary handed to the registered `on_request` callback.  The
optional exception argument is modelled as `Option String`: `some m` is a
non-null exception object whose `str()` is `m` (exception instances are
always truthy in Python, so `str(exception) if exception else None`
evaluates `str` exactly when the object is non-null). -/

/-- The translated request outcome dictionary built by the `on_request`
listener in `_attach_event_listeners`. -/
structure RequestData where
  request_type : String
  name : String
  response_time : Int
  response_length : Int
  success : Bool
  exception : Option String
  deriving DecidableEq, Repr

/-- The `on_request` listener body: `success = exception is None`,
`exception = str(exception) if exception else None`.  Total: the listener
never re-raises. -/
def translate_request (request_type name : String)
    (response_time response_length : Int) (exception : Option String) :
    RequestData :=
  { request_type := request_type
    name := name
    response_time := response_time
    response_length := response_length
    success := exception.isNone
    exception := match exception with
      | none => none
      | some m => some m }

/-- The exception field written by `InfluxDBReporter.write_request`:
`if exception: point.field("exception", exception[:500])`.  Python
truthiness makes both `None` and the empty string skip the field; a
non-empty text is truncated to its first 500 characters. -/
def write_request_exception_field (exception : Option String) :
    Option String :=
  match exception with
  | none => none
  | some m => if m = "" then none else some (pyTruncate m 500)

/-! ## Stats-reporter loop (`runner.py`, `_start_stats_reporter`)

The reporter greenlet runs

```
while not self._stop_flag:
    gevent.sleep(interval)
    if self._runner and self._on_stats:
        ... self._on_stats({...})
```

Under gevent's cooperative scheduling the greenlet yields inside
`gevent.sleep` (and inside the observer's I/O, after the snapshot has
already been handed to `self._on_stats`).  The model below makes the
stretch from waking out of the sleep to invoking `self._on_stats` one
atomic step, which is faithful because that stretch contains no yield
point.  The orchestrator's actions are setting `self._stop_flag` and
`self._stats_greenlet.kill()` (which takes effect at the greenlet's next
resumption). -/

/-- Position of the reporter greenlet at a scheduling point:
at the `while` condition, suspended inside `gevent.sleep`, or killed /
exited. -/
inductive SamplerLoc where
  | atCheck
  | sleeping
  | dead
  deriving DecidableEq, Repr

/-- State shared between the reporter greenlet and the orchestrator.
`canEmit` models `self._runner and self._on_stats` being set (constant for
a given run). -/
structure SamplerState where
  stopFlag : Bool
  loc : SamplerLoc
  canEmit : Bool
  deriving DecidableEq, Repr

/-- An action of the interleaved system: the reporter greenlet resumes and
runs to its next yield point, the orchestrator sets `self._stop_flag`, or
the orchestrator kills the reporter greenlet. -/
inductive SamplerAction where
  | samplerResume
  | setFlag
  | kill
  deriving DecidableEq, Repr

/-- One reporter-greenlet resumption: at the `while` check, a set flag
exits the loop, otherwise the greenlet enters `gevent.sleep`; on waking
from the sleep it computes the snapshot, invokes `self._on_stats` (the
emission, counted by the second component) and returns to the check. -/
def samplerResumeStep (s : SamplerState) : SamplerState × Nat :=
  match s.loc with
  | .dead => (s, 0)
  | .atCheck =>
    if s.stopFlag then ({ s with loc := .dead }, 0)
    else ({ s with loc := .sleeping }, 0)
  | .sleeping => ({ s with loc := .atCheck }, if s.canEmit then 1 else 0)

/-- Effect of one action on the system state, with the number of
snapshots it emits. -/
def samplerApply (s : SamplerState) : SamplerAction → SamplerState × Nat
  | .samplerResume => samplerResumeStep s
  | .setFlag => ({ s with stopFlag := true }, 0)
  | .kill => ({ s with loc := .dead }, 0)

/-- State after executing a sequence of actions. -/
def samplerRun (s : SamplerState) : List SamplerAction → SamplerState
  | [] => s
  | a :: rest => samplerRun (samplerApply s a).1 rest

/-- Total number of snapshots emitted while executing a sequence of
actions from a given state. -/
def samplerEmits (s : SamplerState) : List SamplerAction → Nat
  | [] => 0
  | a :: rest =>
    (samplerApply s a).2 + samplerEmits (samplerApply s a).1 rest

/-! ## `PerfXRunner.run` control flow (`runner.py`)

`run()` is a `try/except KeyboardInterrupt/except Exception/finally` block
driving external effects (environment setup, locustfile loading, Locust
`Environment` construction, runner creation and start, the wait for
completion) and the registered callbacks.  The model abstracts each
external operation by its outcome — return normally, raise an `Exception`
with message `m` (caught by `except Exception`), raise
`KeyboardInterrupt` (caught by the dedicated handler), or raise another
`BaseException` such as `SystemExit` (caught by neither handler) — and
computes the sequence of callback invocations together with how `run()`
terminates.  Operations that cannot raise (attaching listeners, spawning
the reporter and stats-printer greenlets, setting `self._stop_flag`,
killing greenlets) are not given outcome fields. -/

/-- Outcome of one external operation or callback invocation inside
`run()`. -/
inductive StepResult where
  | ok
  | exc (msg : String)
  | kbint
  | fatal
  deriving DecidableEq, Repr

/-- Abstracted behaviour of one `PerfXRunner.run` invocation: the outcome
of each fallible operation, in program order.  `parseResult` abstracts
`self._parse_run_time()` at step 10 (its possible `ValueError` carries the
Python error message); `waitPhase` is the `gevent.sleep(...)` of the timed
branch or the `self._runner.greenlet.join()` of the unbounded branch;
`quitAfterSleep` is the `self._runner.quit()` after the timed sleep;
`quitInKbHandler` is the `self._runner.quit()` inside the
`KeyboardInterrupt` handler. -/
structure RunScenario where
  setupEnv : StepResult
  loadLocustfile : StepResult
  prepareArgs : StepResult
  envConstruct : StepResult
  createRunner : StepResult
  runnerStart : StepResult
  parseResult : Except String (Option Int)
  waitPhase : StepResult
  quitAfterSleep : StepResult
  quitInKbHandler : StepResult
  deriving Repr

/-- The registered callbacks: `none` means not registered; `some r` means
registered and behaving as `r` when invoked. -/
structure Callbacks where
  onStart : Option StepResult
  onComplete : Option StepResult
  onFail : Option StepResult
  deriving DecidableEq, Repr

/-- A callback invocation observed during `run()`. -/
inductive REvent where
  | start
  | complete
  | fail (msg : String)
  deriving DecidableEq, Repr

/-- How `run()` terminates: `ret b` is a normal `return b`; `raised` means
an exception escaped `run()` (after the `finally` block ran). -/
inductive RunOutcome where
  | ret (b : Bool)
  | raised
  deriving DecidableEq, Repr

/-- Prefix a list of already-emitted events onto a continuation's
result. -/
def withEvents (es : List REvent) (p : List REvent × RunOutcome) :
    List REvent × RunOutcome :=
  (es ++ p.1, p.2)

/-- The `except Exception as e` handler: set `self._stop_flag`, invoke
`self._on_fail(str(e))` when registered, `return False`.  An exception
raised by the fail callback itself escapes `run()` (the handler body is
not guarded). -/
def handleException (cbs : Callbacks) (msg : String) :
    List REvent × RunOutcome :=
  match cbs.onFail with
  | none => ([], .ret false)
  | some .ok => ([.fail msg], .ret false)
  | some _ => ([.fail msg], .raised)

/-- Tail of the `except KeyboardInterrupt` handler: invoke
`self._on_complete()` when registered, `return True`; an exception raised
by the complete callback escapes `run()`. -/
def kiComplete (cbs : Callbacks) : List REvent × RunOutcome :=
  match cbs.onComplete with
  | none => ([], .ret true)
  | some .ok => ([.complete], .ret true)
  | some _ => ([.complete], .raised)

/-- The `except KeyboardInterrupt` handler: set `self._stop_flag`, call
`self._runner.quit()` when the runner was already created (an exception
raised there escapes `run()` before any callback), then complete via
`kiComplete`. -/
def handleKI (sc : RunScenario) (cbs : Callbacks) (hasRunner : Bool) :
    List REvent × RunOutcome :=
  if hasRunner then
    match sc.quitInKbHandler with
    | .ok => kiComplete cbs
    | _ => ([], .raised)
  else kiComplete cbs

/-- Steps 11–12 of the `try` body after the wait finished normally: set
`self._stop_flag`, kill the reporter greenlet, invoke
`self._on_complete()` when registered, `return True`.  A
`KeyboardInterrupt` raised by the complete callback is caught by the
`except KeyboardInterrupt` clause of the same `try` (invoking the
complete callback a second time); an `Exception` is caught by
`except Exception` (invoking the fail callback); any other
`BaseException` escapes. -/
def afterWait (sc : RunScenario) (cbs : Callbacks) :
    List REvent × RunOutcome :=
  match cbs.onComplete with
  | none => ([], .ret true)
  | some .ok => ([.complete], .ret true)
  | some (.exc m) => withEvents [.complete] (handleException cbs m)
  | some .kbint => withEvents [.complete] (handleKI sc cbs true)
  | some .fatal => ([.complete], .raised)

/-- Step 10 of the `try` body: parse the run time (a `ValueError` from
`_parse_run_time` lands in `except Exception`), then either sleep for the
configured duration and `quit()` the runner (Python truthiness: a parsed
`0` takes the unbounded branch), or join the runner greenlet; then
continue with `afterWait`. -/
def waitStage (sc : RunScenario) (cbs : Callbacks) :
    List REvent × RunOutcome :=
  match sc.parseResult with
  | .error m => handleException cbs m
  | .ok rt =>
    let timed : Bool := match rt with
      | some n => n ≠ 0
      | none => false
    match sc.waitPhase with
    | .exc m => handleException cbs m
    | .kbint => handleKI sc cbs true
    | .fatal => ([], .raised)
    | .ok =>
      if timed then
        match sc.quitAfterSleep with
        | .ok => afterWait sc cbs
        | .exc m => handleException cbs m
        | .kbint => handleKI sc cbs true
        | .fatal => ([], .raised)
      else
        afterWait sc cbs

/-- Steps 6–10 of the `try` body, after `create_local_runner` succeeded:
invoke `self._on_start()` when registered (exceptions it raises land in
the handlers with the runner already set), spawn the reporter greenlets,
`self._runner.start(...)`, then the wait stage. -/
def startStage (sc : RunScenario) (cbs : Callbacks) :
    List REvent × RunOutcome :=
  let afterStart :=
    match sc.runnerStart with
    | .ok => waitStage sc cbs
    | .exc m => handleException cbs m
    | .kbint => handleKI sc cbs true
    | .fatal => ([], .raised)
  match cbs.onStart with
  | none => afterStart
  | some .ok => withEvents [.start] afterStart
  | some (.exc m) => withEvents [.start] (handleException cbs m)
  | some .kbint => withEvents [.start] (handleKI sc cbs true)
  | some .fatal => ([.start], .raised)

/-- The control flow of `PerfXRunner.run`: steps 1–5 of the `try` body in
program order (environment setup, locustfile loading, script-argument
parsing, `Environment` construction with the `init` event,
`create_local_runner`), each diverting to the matching handler on a raise
— with `self._runner` still `None`, so the `KeyboardInterrupt` handler
skips `quit()` — then `startStage`.  The `finally` block only sets
`self._stop_flag` and kills the reporter greenlet, so it adds no events
and changes no outcome. -/
def runModel (sc : RunScenario) (cbs : Callbacks) :
    List REvent × RunOutcome :=
  match sc.setupEnv with
  | .exc m => handleException cbs m
  | .kbint => handleKI sc cbs false
  | .fatal => ([], .raised)
  | .ok =>
  match sc.loadLocustfile with
  | .exc m => handleException cbs m
  | .kbint => handleKI sc cbs false
  | .fatal => ([], .raised)
  | .ok =>
  match sc.prepareArgs with
  | .exc m => handleException cbs m
  | .kbint => handleKI sc cbs false
  | .fatal => ([], .raised)
  | .ok =>
  match sc.envConstruct with
  | .exc m => handleException cbs m
  | .kbint => handleKI sc cbs false
  | .fatal => ([], .raised)
  | .ok =>
  match sc.createRunner with
  | .exc m => handleException cbs m
  | .kbint => handleKI sc cbs false
  | .fatal => ([], .raised)
  | .ok => startStage sc cbs

/-- Recognizer for the start event. -/
def isStartEv : REvent → Bool
  | .start => true
  | _ => false

/-- Recognizer for terminal events (complete or fail). -/
def isTerminalEv : REvent → Bool
  | .complete => true
  | .fail _ => true
  | .start => false

/-- Recognizer for the complete event. -/
def isCompleteEv : REvent → Bool
  | .complete => true
  | _ => false

/-- Recognizer for fail events. -/
def isFailEv : REvent → Bool
  | .fail _ => true
  | _ => false

/-! ## Helper lemmas -/

/-- The resolved-map component of one `validate` loop iteration does not
depend on the error accumulator. -/
theorem validateStep_snd (args : List (String × PyVal))
    (acc : List ValidationError × List (String × String))
    (p : ArgumentParameter) :
    (validateStep args acc p).2 = resolveStep args acc.2 p := by
  rcases acc with ⟨errors, resolved⟩
  unfold validateStep resolveStep
  cases hv : get_param_value args p.name with
  | none =>
    simp only [hv]
    cases hd : p.default
    · by_cases hr : p.required <;> simp [hr]
    · simp
  | some v =>
    simp only [hv]
    cases ht : validate_type p v
    · simp only [ht]
    · simp only [ht]
      split <;> rfl

/-- The resolved-map component of the whole `validate` fold equals the
error-free fold `resolveArgsOnly` starting from the same map. -/
theorem validate_foldl_snd (args : List (String × PyVal))
    (params : List ArgumentParameter) :
    ∀ acc : List ValidationError × List (String × String),
      (params.foldl (validateStep args) acc).2 =
        params.foldl (resolveStep args) acc.2 := by
  induction params with
  | nil => intro acc; rfl
  | cons p rest ih =>
    intro acc
    simp only [List.foldl_cons, ih, validateStep_snd]

/-- `pyTruncate` never exceeds the requested length. -/
theorem pyTruncate_length_le (s : String) (n : Nat) :
    (pyTruncate s n).length ≤ n := by
  show (s.data.take n).length ≤ n
  simp [List.length_take]

/-- `pyTruncate` with a positive bound preserves non-emptiness. -/
theorem pyTruncate_ne_empty (s : String) (h : s ≠ "") :
    pyTruncate s 500 ≠ "" := by
  intro hc
  apply h
  have hd : s.data.take 500 = [] := congrArg String.data hc
  rcases List.take_eq_nil_iff.mp hd with h1 | h1
  · exact False.elim (by omega)
  · exact String.ext h1

/-! ## Claim C5 — duration parsing -/

/-- C5: `_parse_run_time` maps `"30s" ↦ 30`, `"2m" ↦ 120`, `"1h" ↦ 3600`,
`"45" ↦ 45` and treats `"abc"` as unbounded (`None`), but the claim's
"never raises" part fails: `"xs"` reaches `int("x")` outside the `try`
and raises `ValueError`. -/
theorem parse_run_time_behaviour :
    parse_run_time (some "30s") = .ok (some 30) ∧
    parse_run_time (some "2m") = .ok (some 120) ∧
    parse_run_time (some "1h") = .ok (some 3600) ∧
    parse_run_time (some "45") = .ok (some 45) ∧
    parse_run_time (some "abc") = .ok none ∧
    parse_run_time (some "xs") = .error () :=
  ⟨rfl, rfl, rfl, rfl, rfl, rfl⟩

/-! ## Claim C6 — request-error translation -/

/-- C6 counterexample: for a non-null exception object whose `str()` is
empty, the translated outcome has `success = false` but its error text is
empty and `write_request` forwards no error field at all, so the claimed
non-empty forwarded error text does not exist. -/
theorem translate_request_empty_error_cex :
    (translate_request "GET" "/items" 12 0 (some "")).success = false ∧
    (translate_request "GET" "/items" 12 0 (some "")).exception = some "" ∧
    ¬∃ t, write_request_exception_field
        (translate_request "GET" "/items" 12 0 (some "")).exception = some t ∧
        t ≠ "" := by
  refine ⟨rfl, rfl, ?_⟩
  rintro ⟨t, ht, -⟩
  have h0 : write_request_exception_field
      (translate_request "GET" "/items" 12 0 (some "")).exception = none := rfl
  rw [h0] at ht
  exact Option.noConfusion ht

/-- C6 amended: every engine-reported request with a non-null exception
translates to `success = false` with error text `str(exception)`, which is
never re-thrown; the metrics write forwards it truncated to at most 500
characters and only when it is non-empty (an exception whose string form
is empty yields no forwarded error field). -/
theorem translate_request_error_translation (req_type nm : String)
    (time len : Int) (m : String) :
    (translate_request req_type nm time len (some m)).success = false ∧
    (translate_request req_type nm time len (some m)).exception = some m ∧
    (write_request_exception_field (some m) =
      if m = "" then none else some (pyTruncate m 500)) ∧
    (∀ t, write_request_exception_field (some m) = some t →
      t.length ≤ 500 ∧ t ≠ "") := by
  refine ⟨rfl, rfl, rfl, ?_⟩
  intro t ht
  rw [show write_request_exception_field (some m) =
      (if m = "" then none else some (pyTruncate m 500)) from rfl] at ht
  by_cases hm : m = ""
  · rw [if_pos hm] at ht
    exact Option.noConfusion ht
  · rw [if_neg hm] at ht
    have h2 : pyTruncate m 500 = t := Option.some.inj ht
    rw [← h2]
    exact ⟨pyTruncate_length_le m 500, pyTruncate_ne_empty m hm⟩

/-- C6 witness: the amended theorem applied at a concrete request. -/
theorem translate_request_error_translation_witness :
    (translate_request "GET" "/items" 12 0 (some "timeout")).success = false ∧
    (translate_request "GET" "/items" 12 0 (some "timeout")).exception =
      some "timeout" ∧
    (write_request_exception_field (some "timeout") =
      if "timeout" = "" then none else some (pyTruncate "timeout" 500)) ∧
    (∀ t, write_request_exception_field (some "timeout") = some t →
      t.length ≤ 500 ∧ t ≠ "") :=
  translate_request_error_translation "GET" "/items" 12 0 "timeout"

/-! ## Claim C7 — validator contract -/

/-- C7: on schema `[{name:"rate", type:"int", required:true}]` the empty
input is invalid with exactly one error for `rate`, and input
`{"rate":"10"}` is valid with `resolved_arguments == {"rate":"10"}`;
in general the validity flag is true iff the error sequence is empty, and
`resolved_arguments` is computed independently of the errors (so it is
populated even when the result is invalid). -/
theorem validate_contract :
    (validate [{name := "rate", type := "int", required := true}] [] =
      { valid := false
        errors := [{ parameter := "rate", message := msgRequired "rate" }]
        resolved_arguments := [] }) ∧
    (validate [{name := "rate", type := "int", required := true}]
        [("rate", PyVal.str "10")] =
      { valid := true, errors := [], resolved_arguments := [("rate", "10")] }) ∧
    (∀ params args, ((validate params args).valid = true ↔
      (validate params args).errors = [])) ∧
    (∀ params args, (validate params args).resolved_arguments =
      resolveArgsOnly params args) := by
  refine ⟨by decide, by decide, ?_, ?_⟩
  · intro params args
    show (params.foldl (validateStep args) ([], [])).1.isEmpty = true ↔
      (params.foldl (validateStep args) ([], [])).1 = []
    exact List.isEmpty_iff
  · intro params args
    show (params.foldl (validateStep args) ([], [])).2 = resolveArgsOnly params args
    exact validate_foldl_snd args params ([], [])

/-! ## Claim C8 — hyphen/underscore resolution -/

/-- C8: `_get_param_value` resolves the caller value by exact parameter
name first and then by the hyphen-to-underscore-normalized name; and a
hyphenated CLI input key `--rate-limit` resolves against schema name
`rate_limit` (because `parse_extra_args` normalizes input keys before the
validator looks them up). -/
theorem param_lookup_resolution :
    (∀ args name, get_param_value args name =
      (match dictLookup args name with
       | some v => some v
       | none => dictLookup args (normalize_key name))) ∧
    (∀ v : String, dashDash v = false →
      parse_extra_args ["--rate-limit", v] = [("rate_limit", PyVal.str v)] ∧
      get_param_value (parse_extra_args ["--rate-limit", v]) "rate_limit" =
        some (PyVal.str v)) := by
  constructor
  · intro args name
    rfl
  · intro v hv
    have hp : parse_extra_args ["--rate-limit", v] =
        [("rate_limit", PyVal.str v)] := by
      show parse_extra_args_aux ["--rate-limit", v] [] = _
      rw [show parse_extra_args_aux ["--rate-limit", v] [] =
          (if dashDash "--rate-limit" then
            match splitAtFirst ['='] (⟨("--rate-limit" : String).data.drop 2⟩ : String).data with
            | some (key, value) =>
              parse_extra_args_aux [v]
                (dictInsert [] (normalize_key ⟨key⟩) (.str ⟨value⟩))
            | none =>
              if !dashDash v then
                parse_extra_args_aux []
                  (dictInsert [] (normalize_key ⟨("--rate-limit" : String).data.drop 2⟩) (.str v))
              else
                parse_extra_args_aux [v]
                  (dictInsert [] (normalize_key ⟨("--rate-limit" : String).data.drop 2⟩) (.bool true))
          else parse_extra_args_aux [v] []) from rfl]
      rw [show dashDash "--rate-limit" = true from rfl]
      rw [show splitAtFirst ['='] (⟨("--rate-limit" : String).data.drop 2⟩ : String).data =
          none from rfl]
      simp only [if_true, hv, Bool.not_false, if_pos]
      rfl
    refine ⟨hp, ?_⟩
    rw [hp]
    show (if ("rate_limit" : String) = "rate_limit" then some (PyVal.str v)
      else dictLookup [] "rate_limit") = some (PyVal.str v)
    rw [if_pos rfl]

/-- C8 witness: the hyphenated key resolves at a concrete value. -/
theorem param_lookup_resolution_witness :
    parse_extra_args ["--rate-limit", "5"] = [("rate_limit", PyVal.str "5")] ∧
    get_param_value (parse_extra_args ["--rate-limit", "5"]) "rate_limit" =
      some (PyVal.str "5") :=
  param_lookup_resolution.2 "5" rfl

/-! ## Claim C9 — choice membership -/

/-- C9: on schema `[{name:"mode", type:"choice", choices:["a","b"],
required:true}]` the input `{"mode":"c"}` yields an invalid result whose
single error is the choice-membership error for `mode`, and `mode` is
absent from `resolved_arguments`. -/
theorem validate_choice_rejects_nonmember :
    validate
      [{name := "mode", type := "choice", required := true,
        choices := some ["a", "b"]}]
      [("mode", PyVal.str "c")] =
      { valid := false
        errors := [{ parameter := "mode"
                     message := msgChoice "mode" ["a", "b"] }]
        resolved_arguments := [] } ∧
    dictLookup (validate
      [{name := "mode", type := "choice", required := true,
        choices := some ["a", "b"]}]
      [("mode", PyVal.str "c")]).resolved_arguments "mode" = none := by
  decide

/-! ## Claim C10 — bool canonicalization -/

/-- A bool-typed schema entry, used to state the bool-canonicalization
property for an arbitrary name, required flag and default. -/
def boolParam (nm : String) (req : Bool) (dflt : Option String) :
    ArgumentParameter :=
  { name := nm, type := "bool", required := req, default := dflt }

/-- C10: for a bool-typed parameter, a supplied Python boolean or an
accepted string (case-insensitively `true`/`1`/`yes` or
`false`/`0`/`no`) resolves to exactly the canonical lowercase string
`"true"` or `"false"`; any other supplied string records a type error and
leaves the parameter out of `resolved_arguments`. -/
theorem validate_bool_canonicalization (nm : String) (req : Bool)
    (dflt : Option String) (v : PyVal) :
    (∀ b, v = .bool b →
      (validate [boolParam nm req dflt] [(nm, v)]).errors = [] ∧
      dictLookup (validate [boolParam nm req dflt] [(nm, v)]).resolved_arguments
        nm = some (if b then "true" else "false")) ∧
    (∀ s, v = .str s →
      (pyLower s = "true" ∨ pyLower s = "1" ∨ pyLower s = "yes") →
      (validate [boolParam nm req dflt] [(nm, v)]).errors = [] ∧
      dictLookup (validate [boolParam nm req dflt] [(nm, v)]).resolved_arguments
        nm = some "true") ∧
    (∀ s, v = .str s →
      (pyLower s = "false" ∨ pyLower s = "0" ∨ pyLower s = "no") →
      (validate [boolParam nm req dflt] [(nm, v)]).errors = [] ∧
      dictLookup (validate [boolParam nm req dflt] [(nm, v)]).resolved_arguments
        nm = some "false") ∧
    (∀ s, v = .str s →
      pyLower s ≠ "true" → pyLower s ≠ "1" → pyLower s ≠ "yes" →
      pyLower s ≠ "false" → pyLower s ≠ "0" → pyLower s ≠ "no" →
      (validate [boolParam nm req dflt] [(nm, v)]).errors =
        [{ parameter := nm, message := msgType nm "bool" }] ∧
      dictLookup (validate [boolParam nm req dflt] [(nm, v)]).resolved_arguments
        nm = none) := by
  have hty : ∀ w : PyVal,
      validate_type (boolParam nm req dflt) w =
      (match w with
       | .bool b => some (if b then "true" else "false")
       | .str s =>
         if pyLower s = "true" || pyLower s = "1" || pyLower s = "yes" then
           some "true"
         else if pyLower s = "false" || pyLower s = "0" || pyLower s = "no" then
           some "false"
         else none) := by
    intro w
    rfl
  have hval : ∀ w : PyVal,
      validate [boolParam nm req dflt] [(nm, w)] =
      (match validate_type (boolParam nm req dflt) w with
       | none =>
         { valid := false
           errors := [{ parameter := nm, message := msgType nm "bool" }]
           resolved_arguments := [] }
       | some res =>
         { valid := true, errors := [], resolved_arguments := [(nm, res)] }) := by
    intro w
    unfold validate
    rw [show List.foldl (validateStep [(nm, w)]) ([], []) [boolParam nm req dflt] =
      validateStep [(nm, w)] ([], []) (boolParam nm req dflt) from rfl]
    unfold validateStep
    dsimp only [boolParam]
    rw [show get_param_value [(nm, w)] nm = some w from by
      show (match dictLookup [(nm, w)] nm with
        | some u => some u
        | none => dictLookup [(nm, w)] (normalize_key nm)) = some w
      rw [show dictLookup [(nm, w)] nm = some w from by
        show (if nm = nm then some w else dictLookup [] nm) = some w
        rw [if_pos rfl]]]
    dsimp only [boolParam]
    cases hw : validate_type
        { name := nm, type := "bool", required := req, default := dflt,
          description := none, choices := none } w with
    | none => rfl
    | some res => rfl
  refine ⟨?_, ?_, ?_, ?_⟩
  · rintro b rfl
    rw [hval (.bool b), hty (.bool b)]
    exact ⟨rfl, by
      show (if nm = nm then some (if b then "true" else "false")
        else dictLookup [] nm) = some (if b then "true" else "false")
      rw [if_pos rfl]⟩
  · rintro s rfl hs
    have ht : validate_type (boolParam nm req dflt) (.str s) = some "true" := by
      rw [hty (.str s)]
      rcases hs with h | h | h <;> simp [h]
    rw [hval (.str s), ht]
    exact ⟨rfl, by
      show (if nm = nm then some "true" else dictLookup [] nm) = some "true"
      rw [if_pos rfl]⟩
  · rintro s rfl hs
    have ht : validate_type (boolParam nm req dflt) (.str s) = some "false" := by
      rw [hty (.str s)]
      rcases hs with h | h | h <;> simp [h]
    rw [hval (.str s), ht]
    exact ⟨rfl, by
      show (if nm = nm then some "false" else dictLookup [] nm) = some "false"
      rw [if_pos rfl]⟩
  · rintro s rfl h1 h2 h3 h4 h5 h6
    have ht : validate_type (boolParam nm req dflt) (.str s) = none := by
      rw [hty (.str s)]
      simp [h1, h2, h3, h4, h5, h6]
    rw [hval (.str s), ht]
    exact ⟨rfl, rfl⟩

/-- C10 witness: a concrete accepted string (`"Yes"`) canonicalizes to
`"true"`, via the theorem. -/
theorem validate_bool_canonicalization_witness :
    (validate [boolParam "debug" true none]
      [("debug", PyVal.str "Yes")]).errors = [] ∧
    dictLookup (validate [boolParam "debug" true none]
      [("debug", PyVal.str "Yes")]).resolved_arguments "debug" = some "true" :=
  (validate_bool_canonicalization "debug" true none
    (PyVal.str "Yes")).2.1 "Yes" rfl (Or.inr (Or.inr (by decide)))

/-! ## Claim C2 — setup failure before engine start -/

/-- C2: when any setup step before the engine start fails with an
exception (environment setup, `_load_locustfile` — missing locustfile or
no valid `User` class —, script-argument parsing, `Environment`
construction, or runner creation), `run()` never invokes the start
callback, invokes the fail callback exactly once with the error message,
and returns `False`. -/
theorem run_setup_failure (sc : RunScenario) (cbs : Callbacks) (msg : String)
    (hsetup : sc.setupEnv = .exc msg ∨
      (sc.setupEnv = .ok ∧ sc.loadLocustfile = .exc msg) ∨
      (sc.setupEnv = .ok ∧ sc.loadLocustfile = .ok ∧
        sc.prepareArgs = .exc msg) ∨
      (sc.setupEnv = .ok ∧ sc.loadLocustfile = .ok ∧ sc.prepareArgs = .ok ∧
        sc.envConstruct = .exc msg) ∨
      (sc.setupEnv = .ok ∧ sc.loadLocustfile = .ok ∧ sc.prepareArgs = .ok ∧
        sc.envConstruct = .ok ∧ sc.createRunner = .exc msg))
    (hf : cbs.onFail = some .ok) :
    runModel sc cbs = ([.fail msg], .ret false) ∧
    (runModel sc cbs).1.countP isStartEv = 0 ∧
    (runModel sc cbs).1.countP isFailEv = 1 := by
  have he : runModel sc cbs = ([.fail msg], .ret false) := by
    unfold runModel
    rcases hsetup with h1 | ⟨h1, h2⟩ | ⟨h1, h2, h3⟩ | ⟨h1, h2, h3, h4⟩ |
      ⟨h1, h2, h3, h4, h5⟩
    · rw [h1]
      unfold handleException
      rw [hf]
    · rw [h1, h2]
      unfold handleException
      rw [hf]
    · rw [h1, h2, h3]
      unfold handleException
      rw [hf]
    · rw [h1, h2, h3, h4]
      unfold handleException
      rw [hf]
    · rw [h1, h2, h3, h4, h5]
      unfold handleException
      rw [hf]
  refine ⟨he, ?_, ?_⟩ <;> rw [he] <;>
    simp [List.countP_cons, isStartEv, isFailEv]

/-- C2 witness: a concrete missing-locustfile scenario. -/
theorem run_setup_failure_witness :
    runModel
      { setupEnv := .ok, loadLocustfile := .exc "no User class",
        prepareArgs := .ok, envConstruct := .ok, createRunner := .ok,
        runnerStart := .ok, parseResult := .ok none, waitPhase := .ok,
        quitAfterSleep := .ok, quitInKbHandler := .ok }
      { onStart := some .ok, onComplete := some .ok, onFail := some .ok } =
      ([.fail "no User class"], .ret false) ∧
    (runModel
      { setupEnv := .ok, loadLocustfile := .exc "no User class",
        prepareArgs := .ok, envConstruct := .ok, createRunner := .ok,
        runnerStart := .ok, parseResult := .ok none, waitPhase := .ok,
        quitAfterSleep := .ok, quitInKbHandler := .ok }
      { onStart := some .ok, onComplete := some .ok, onFail := some .ok
        }).1.countP isStartEv = 0 ∧
    (runModel
      { setupEnv := .ok, loadLocustfile := .exc "no User class",
        prepareArgs := .ok, envConstruct := .ok, createRunner := .ok,
        runnerStart := .ok, parseResult := .ok none, waitPhase := .ok,
        quitAfterSleep := .ok, quitInKbHandler := .ok }
      { onStart := some .ok, onComplete := some .ok, onFail := some .ok
        }).1.countP isFailEv = 1 :=
  run_setup_failure _ _ "no User class" (Or.inr (Or.inl ⟨rfl, rfl⟩)) rfl

/-! ## Claim C3 — interrupt treated as requested stop -/

/-- C3: a `KeyboardInterrupt` arriving while the test is running (during
the wait phase) makes `run()` invoke the complete callback, not the fail
callback, and return `True` — identical to duration expiry. -/
theorem run_interrupt_is_completed (sc : RunScenario) (cbs : Callbacks)
    (rtv : Option Int)
    (h1 : sc.setupEnv = .ok) (h2 : sc.loadLocustfile = .ok)
    (h3 : sc.prepareArgs = .ok) (h4 : sc.envConstruct = .ok)
    (h5 : sc.createRunner = .ok) (h6 : sc.runnerStart = .ok)
    (hs : cbs.onStart = none ∨ cbs.onStart = some .ok)
    (hp : sc.parseResult = .ok rtv)
    (hw : sc.waitPhase = .kbint)
    (hq : sc.quitInKbHandler = .ok)
    (hc : cbs.onComplete = some .ok) :
    (runModel sc cbs).1.any isCompleteEv = true ∧
    (runModel sc cbs).1.any isFailEv = false ∧
    (runModel sc cbs).2 = .ret true := by
  have hki : handleKI sc cbs true = ([.complete], .ret true) := by
    unfold handleKI kiComplete
    rw [hq, hc]
    rfl
  have hws : waitStage sc cbs = ([.complete], .ret true) := by
    unfold waitStage
    rw [hp, hw]
    exact hki
  have hrm : runModel sc cbs = startStage sc cbs := by
    unfold runModel
    rw [h1, h2, h3, h4, h5]
  rcases hs with hs | hs
  · have : runModel sc cbs = ([.complete], .ret true) := by
      rw [hrm]
      unfold startStage
      rw [h6, hs]
      exact hws
    rw [this]
    exact ⟨rfl, rfl, rfl⟩
  · have : runModel sc cbs = ([.start, .complete], .ret true) := by
      rw [hrm]
      unfold startStage
      rw [h6, hs, hws]
      rfl
    rw [this]
    exact ⟨rfl, rfl, rfl⟩

/-- C3 witness: a concrete unbounded run interrupted by the operator. -/
theorem run_interrupt_is_completed_witness :
    (runModel
      { setupEnv := .ok, loadLocustfile := .ok, prepareArgs := .ok,
        envConstruct := .ok, createRunner := .ok, runnerStart := .ok,
        parseResult := .ok none, waitPhase := .kbint,
        quitAfterSleep := .ok, quitInKbHandler := .ok }
      { onStart := some .ok, onComplete := some .ok, onFail := some .ok
        }).1.any isCompleteEv = true ∧
    (runModel
      { setupEnv := .ok, loadLocustfile := .ok, prepareArgs := .ok,
        envConstruct := .ok, createRunner := .ok, runnerStart := .ok,
        parseResult := .ok none, waitPhase := .kbint,
        quitAfterSleep := .ok, quitInKbHandler := .ok }
      { onStart := some .ok, onComplete := some .ok, onFail := some .ok
        }).1.any isFailEv = false ∧
    (runModel
      { setupEnv := .ok, loadLocustfile := .ok, prepareArgs := .ok,
        envConstruct := .ok, createRunner := .ok, runnerStart := .ok,
        parseResult := .ok none, waitPhase := .kbint,
        quitAfterSleep := .ok, quitInKbHandler := .ok }
      { onStart := some .ok, onComplete := some .ok, onFail := some .ok
        }).2 = .ret true :=
  run_interrupt_is_completed _ _ none rfl rfl rfl rfl rfl rfl
    (Or.inr rfl) rfl rfl rfl rfl

/-! ## Claim C4 — sampler cancellation -/

/-- C4 counterexample: setting the stop flag alone does not prevent a
further snapshot.  From the initial reporter state, one reporter
resumption leaves the greenlet suspended in `gevent.sleep`; the
orchestrator then sets `self._stop_flag` (as the `quitting` listener and
the `KeyboardInterrupt` handler do, without an immediate `kill`); the
reporter's next resumption still emits one snapshot, because the
`while not self._stop_flag` check runs before the sleep, not after it. -/
theorem sampler_flag_alone_cex :
    samplerRun { stopFlag := false, loc := .atCheck, canEmit := true }
      [.samplerResume, .setFlag] =
      { stopFlag := true, loc := .sleeping, canEmit := true } ∧
    samplerEmits { stopFlag := true, loc := .sleeping, canEmit := true }
      [.samplerResume] = 1 := by
  decide

/-- A dead reporter greenlet never emits again, whatever actions follow. -/
theorem samplerEmits_dead (acts : List SamplerAction) :
    ∀ s : SamplerState, s.loc = .dead → samplerEmits s acts = 0 := by
  induction acts with
  | nil => intro s _; rfl
  | cons a rest ih =>
    intro s hs
    cases a with
    | samplerResume =>
      show (samplerResumeStep s).2 + samplerEmits (samplerResumeStep s).1 rest = 0
      rw [show samplerResumeStep s = (s, 0) from by
        unfold samplerResumeStep
        rw [hs]]
      rw [ih s hs]
    | setFlag =>
      show 0 + samplerEmits { s with stopFlag := true } rest = 0
      rw [ih { s with stopFlag := true } hs]
    | kill =>
      show 0 + samplerEmits { s with loc := .dead } rest = 0
      rw [ih { s with loc := .dead } rfl]

/-- Once the stop flag is set, the reporter emits at most one further
snapshot — exactly when it was already suspended inside `gevent.sleep`
past its flag check. -/
theorem samplerEmits_flag_bound (acts : List SamplerAction) :
    ∀ s : SamplerState, s.stopFlag = true →
      samplerEmits s acts ≤ (if s.loc = .sleeping then 1 else 0) := by
  induction acts with
  | nil =>
    intro s _
    show 0 ≤ _
    exact Nat.zero_le _
  | cons a rest ih =>
    intro s hf
    cases a with
    | samplerResume =>
      show (samplerResumeStep s).2 + samplerEmits (samplerResumeStep s).1 rest ≤ _
      cases hl : s.loc with
      | dead =>
        rw [show samplerResumeStep s = (s, 0) from by
          unfold samplerResumeStep
          rw [hl]]
        rw [samplerEmits_dead rest s hl]
        simp
      | atCheck =>
        rw [show samplerResumeStep s = ({ s with loc := .dead }, 0) from by
          unfold samplerResumeStep
          rw [hl, hf]
          rfl]
        rw [samplerEmits_dead rest { s with loc := .dead } rfl]
        simp
      | sleeping =>
        rw [show samplerResumeStep s =
            ({ s with loc := .atCheck }, if s.canEmit then 1 else 0) from by
          unfold samplerResumeStep
          rw [hl]]
        have h2 := ih { s with loc := .atCheck } hf
        rw [if_neg (by intro h; exact SamplerLoc.noConfusion h)] at h2
        rw [if_pos rfl]
        have h3 : (if s.canEmit = true then 1 else 0) ≤ 1 := by
          cases s.canEmit <;> simp
        dsimp only
        omega
    | setFlag =>
      show 0 + samplerEmits { s with stopFlag := true } rest ≤ _
      have h2 := ih { s with stopFlag := true } rfl
      rw [Nat.zero_add]
      exact h2
    | kill =>
      show 0 + samplerEmits { s with loc := .dead } rest ≤ _
      rw [samplerEmits_dead rest { s with loc := .dead } rfl]
      exact Nat.zero_le _

/-- C4 amended: cancellation is only synchronous when the orchestrator
both sets the stop flag and kills the reporter greenlet with no yield in
between, as `run()` does after a normal wait — after that pair no further
snapshot is ever emitted.  Setting the stop flag alone (the `quitting`
listener and the interrupt handler) allows at most one further snapshot,
emitted by an iteration that had already passed its flag check and was
suspended in `gevent.sleep` when the flag was set. -/
theorem sampler_cancellation (s : SamplerState) (acts : List SamplerAction) :
    (samplerRun s [.setFlag, .kill]).loc = .dead ∧
    samplerEmits (samplerRun s [.setFlag, .kill]) acts = 0 ∧
    (s.loc = .dead → samplerEmits s acts = 0) ∧
    (s.stopFlag = true → samplerEmits s acts ≤ 1) := by
  refine ⟨rfl, ?_, samplerEmits_dead acts s, ?_⟩
  · exact samplerEmits_dead acts _ rfl
  · intro hf
    have h := samplerEmits_flag_bound acts s hf
    have h2 : (if s.loc = .sleeping then 1 else 0) ≤ 1 := by
      by_cases hl : s.loc = .sleeping <;> simp [hl]
    omega

/-- C4 witness: the amended theorem at the reachable post-counterexample
state and a nonempty action suffix. -/
theorem sampler_cancellation_witness :
    (samplerRun { stopFlag := true, loc := .sleeping, canEmit := true }
      [.setFlag, .kill]).loc = .dead ∧
    samplerEmits (samplerRun
      { stopFlag := true, loc := .sleeping, canEmit := true }
      [.setFlag, .kill]) [.samplerResume, .samplerResume] = 0 ∧
    (SamplerState.loc { stopFlag := true, loc := .sleeping, canEmit := true }
        = .dead →
      samplerEmits { stopFlag := true, loc := .sleeping, canEmit := true }
        [.samplerResume, .samplerResume] = 0) ∧
    (SamplerState.stopFlag
        { stopFlag := true, loc := .sleeping, canEmit := true } = true →
      samplerEmits { stopFlag := true, loc := .sleeping, canEmit := true }
        [.samplerResume, .samplerResume] ≤ 1) :=
  sampler_cancellation
    { stopFlag := true, loc := .sleeping, canEmit := true }
    [.samplerResume, .samplerResume]

/-! ## Claim C1 — single delivery of lifecycle callbacks -/

/-- C1 counterexample: `run()` has no idempotency guard around the
terminal callbacks.  In a run where everything succeeds but the registered
complete callback itself raises an `Exception` (e.g. a control-plane
notification failure), the `except Exception` clause of the same `try`
then invokes the fail callback as well: two terminal callbacks, both
kinds, in one invocation. -/
theorem run_double_terminal_cex :
    runModel
      { setupEnv := .ok, loadLocustfile := .ok, prepareArgs := .ok,
        envConstruct := .ok, createRunner := .ok, runnerStart := .ok,
        parseResult := .ok (some 30), waitPhase := .ok,
        quitAfterSleep := .ok, quitInKbHandler := .ok }
      { onStart := some .ok, onComplete := some (.exc "notify failed"),
        onFail := some .ok } =
      ([.start, .complete, .fail "notify failed"], .ret false) ∧
    ¬((runModel
      { setupEnv := .ok, loadLocustfile := .ok, prepareArgs := .ok,
        envConstruct := .ok, createRunner := .ok, runnerStart := .ok,
        parseResult := .ok (some 30), waitPhase := .ok,
        quitAfterSleep := .ok, quitInKbHandler := .ok }
      { onStart := some .ok, onComplete := some (.exc "notify failed"),
        onFail := some .ok }).1.countP isTerminalEv ≤ 1) ∧
    (runModel
      { setupEnv := .ok, loadLocustfile := .ok, prepareArgs := .ok,
        envConstruct := .ok, createRunner := .ok, runnerStart := .ok,
        parseResult := .ok (some 30), waitPhase := .ok,
        quitAfterSleep := .ok, quitInKbHandler := .ok }
      { onStart := some .ok, onComplete := some (.exc "notify failed"),
        onFail := some .ok }).1.any isCompleteEv = true ∧
    (runModel
      { setupEnv := .ok, loadLocustfile := .ok, prepareArgs := .ok,
        envConstruct := .ok, createRunner := .ok, runnerStart := .ok,
        parseResult := .ok (some 30), waitPhase := .ok,
        quitAfterSleep := .ok, quitInKbHandler := .ok }
      { onStart := some .ok, onComplete := some (.exc "notify failed"),
        onFail := some .ok }).1.any isFailEv = true := by
  decide

/-- Properties of the part of a `run()` execution that follows the
(unique) possible start event: no start event, at most one terminal
event, never both kinds of terminal, and — when both terminal callbacks
are registered and well-behaved — a normal return implies exactly one
terminal event was emitted. -/
def TailProps (cbs : Callbacks) (p : List REvent × RunOutcome) : Prop :=
  p.1.countP isStartEv = 0 ∧
  p.1.countP isTerminalEv ≤ 1 ∧
  ¬(p.1.any isCompleteEv = true ∧ p.1.any isFailEv = true) ∧
  (cbs.onComplete = some .ok → cbs.onFail = some .ok →
    ∀ b, p.2 = .ret b → p.1.countP isTerminalEv = 1)

/-- The single-delivery contract of a whole `run()` execution: at most one
start event, at most one terminal event, never both kinds of terminal,
and a terminal event before any normal return (with both terminal
callbacks registered and well-behaved). -/
def RunProps (cbs : Callbacks) (p : List REvent × RunOutcome) : Prop :=
  p.1.countP isStartEv ≤ 1 ∧
  p.1.countP isTerminalEv ≤ 1 ∧
  ¬(p.1.any isCompleteEv = true ∧ p.1.any isFailEv = true) ∧
  (cbs.onComplete = some .ok → cbs.onFail = some .ok →
    ∀ b, p.2 = .ret b → p.1.countP isTerminalEv = 1)

/-- An execution fragment that raises without emitting events satisfies
the tail contract. -/
theorem tailProps_raised (cbs : Callbacks) : TailProps cbs ([], .raised) := by
  refine ⟨rfl, by simp, by simp, ?_⟩
  intro _ _ b hb
  exact RunOutcome.noConfusion hb

/-- The `except Exception` handler satisfies the tail contract. -/
theorem tailProps_handleException (cbs : Callbacks) (m : String) :
    TailProps cbs (handleException cbs m) := by
  unfold handleException
  cases hf : cbs.onFail with
  | none =>
    refine ⟨rfl, by simp, by simp, ?_⟩
    intro _ hff b hb
    rw [hf] at hff
    exact Option.noConfusion hff
  | some r =>
    cases r with
    | ok =>
      refine ⟨?_, ?_, ?_, ?_⟩
      · simp [List.countP_cons, isStartEv]
      · simp [List.countP_cons, isTerminalEv]
      · simp [isCompleteEv]
      · intro _ _ b _
        simp [List.countP_cons, isTerminalEv]
    | exc m' =>
      refine ⟨?_, ?_, ?_, ?_⟩
      · simp [List.countP_cons, isStartEv]
      · simp [List.countP_cons, isTerminalEv]
      · simp [isCompleteEv]
      · intro _ _ b hb
        exact RunOutcome.noConfusion hb
    | kbint =>
      refine ⟨?_, ?_, ?_, ?_⟩
      · simp [List.countP_cons, isStartEv]
      · simp [List.countP_cons, isTerminalEv]
      · simp [isCompleteEv]
      · intro _ _ b hb
        exact RunOutcome.noConfusion hb
    | fatal =>
      refine ⟨?_, ?_, ?_, ?_⟩
      · simp [List.countP_cons, isStartEv]
      · simp [List.countP_cons, isTerminalEv]
      · simp [isCompleteEv]
      · intro _ _ b hb
        exact RunOutcome.noConfusion hb

/-- The completion tail of the `KeyboardInterrupt` handler satisfies the
tail contract when the complete callback does not raise. -/
theorem tailProps_kiComplete (cbs : Callbacks)
    (hc : cbs.onComplete = none ∨ cbs.onComplete = some .ok) :
    TailProps cbs (kiComplete cbs) := by
  unfold kiComplete
  rcases hc with hc | hc <;> rw [hc]
  · refine ⟨rfl, by simp, by simp, ?_⟩
    intro hcc _ b hb
    rw [hc] at hcc
    exact Option.noConfusion hcc
  · refine ⟨?_, ?_, ?_, ?_⟩
    · simp [List.countP_cons, isStartEv]
    · simp [List.countP_cons, isTerminalEv]
    · simp [isFailEv]
    · intro _ _ b _
      simp [List.countP_cons, isTerminalEv]

/-- The whole `KeyboardInterrupt` handler satisfies the tail contract when
the complete callback does not raise. -/
theorem tailProps_handleKI (sc : RunScenario) (cbs : Callbacks)
    (hr : Bool)
    (hc : cbs.onComplete = none ∨ cbs.onComplete = some .ok) :
    TailProps cbs (handleKI sc cbs hr) := by
  unfold handleKI
  cases hr with
  | false => exact tailProps_kiComplete cbs hc
  | true =>
    cases sc.quitInKbHandler with
    | ok => exact tailProps_kiComplete cbs hc
    | exc m => exact tailProps_raised cbs
    | kbint => exact tailProps_raised cbs
    | fatal => exact tailProps_raised cbs

/-- Steps 11–13 of the `try` body satisfy the tail contract when the
complete callback does not raise. -/
theorem tailProps_afterWait (sc : RunScenario) (cbs : Callbacks)
    (hc : cbs.onComplete = none ∨ cbs.onComplete = some .ok) :
    TailProps cbs (afterWait sc cbs) := by
  unfold afterWait
  rcases hc with hc | hc <;> rw [hc]
  · refine ⟨rfl, by simp, by simp, ?_⟩
    intro hcc _ b hb
    rw [hc] at hcc
    exact Option.noConfusion hcc
  · refine ⟨?_, ?_, ?_, ?_⟩
    · simp [List.countP_cons, isStartEv]
    · simp [List.countP_cons, isTerminalEv]
    · simp [isFailEv]
    · intro _ _ b _
      simp [List.countP_cons, isTerminalEv]

/-- The wait stage (duration parse, sleep/join, quit) satisfies the tail
contract when the complete callback does not raise. -/
theorem tailProps_waitStage (sc : RunScenario) (cbs : Callbacks)
    (hc : cbs.onComplete = none ∨ cbs.onComplete = some .ok) :
    TailProps cbs (waitStage sc cbs) := by
  unfold waitStage
  cases sc.parseResult with
  | error m => exact tailProps_handleException cbs m
  | ok rt =>
    cases sc.waitPhase with
    | exc m => exact tailProps_handleException cbs m
    | kbint => exact tailProps_handleKI sc cbs true hc
    | fatal => exact tailProps_raised cbs
    | ok =>
      dsimp only
      by_cases ht : (match rt with
        | some n => decide (n ≠ 0)
        | none => false) = true
      · rw [if_pos ht]
        cases sc.quitAfterSleep with
        | ok => exact tailProps_afterWait sc cbs hc
        | exc m => exact tailProps_handleException cbs m
        | kbint => exact tailProps_handleKI sc cbs true hc
        | fatal => exact tailProps_raised cbs
      · rw [if_neg ht]
        exact tailProps_afterWait sc cbs hc

/-- A tail fragment trivially satisfies the whole-run contract. -/
theorem runProps_of_tail (cbs : Callbacks) (p : List REvent × RunOutcome)
    (h : TailProps cbs p) : RunProps cbs p := by
  obtain ⟨h1, h2, h3, h4⟩ := h
  exact ⟨h1 ▸ Nat.zero_le 1, h2, h3, h4⟩

/-- Prefixing the single start event onto a tail fragment yields the
whole-run contract. -/
theorem runProps_withStart (cbs : Callbacks) (p : List REvent × RunOutcome)
    (h : TailProps cbs p) : RunProps cbs (withEvents [.start] p) := by
  obtain ⟨h1, h2, h3, h4⟩ := h
  unfold withEvents RunProps
  refine ⟨?_, ?_, ?_, ?_⟩
  · rw [List.countP_append, h1]
    simp [List.countP_cons, isStartEv]
  · rw [List.countP_append]
    have hz : List.countP isTerminalEv [REvent.start] = 0 := by
      simp [List.countP_cons, isTerminalEv]
    omega
  · rw [List.any_append]
    rw [show List.any [REvent.start] isCompleteEv = false from by
      simp [isCompleteEv]]
    rw [List.any_append]
    rw [show List.any [REvent.start] isFailEv = false from by
      simp [isFailEv]]
    simpa using h3
  · intro hcc hff b hb
    rw [List.countP_append]
    rw [show List.countP isTerminalEv [REvent.start] = 0 from by
      simp [List.countP_cons, isTerminalEv]]
    rw [h4 hcc hff b hb]

/-- Steps 6–10 of the `try` body (the start callback onward) satisfy the
whole-run contract when the complete callback does not raise. -/
theorem runProps_startStage (sc : RunScenario) (cbs : Callbacks)
    (hc : cbs.onComplete = none ∨ cbs.onComplete = some .ok) :
    RunProps cbs (startStage sc cbs) := by
  unfold startStage
  have htail : TailProps cbs (match sc.runnerStart with
      | .ok => waitStage sc cbs
      | .exc m => handleException cbs m
      | .kbint => handleKI sc cbs true
      | .fatal => ([], .raised)) := by
    cases sc.runnerStart with
    | ok => exact tailProps_waitStage sc cbs hc
    | exc m => exact tailProps_handleException cbs m
    | kbint => exact tailProps_handleKI sc cbs true hc
    | fatal => exact tailProps_raised cbs
  cases hs : cbs.onStart with
  | none => exact runProps_of_tail cbs _ htail
  | some r =>
    cases r with
    | ok => exact runProps_withStart cbs _ htail
    | exc m => exact runProps_withStart cbs _ (tailProps_handleException cbs m)
    | kbint => exact runProps_withStart cbs _ (tailProps_handleKI sc cbs true hc)
    | fatal =>
      refine ⟨?_, ?_, ?_, ?_⟩
      · simp [List.countP_cons, isStartEv]
      · simp [List.countP_cons, isTerminalEv]
      · simp [isCompleteEv]
      · intro _ _ b hb
        exact RunOutcome.noConfusion hb

/-- The whole of `run()` satisfies the whole-run contract when the
complete callback does not raise. -/
theorem runProps_runModel (sc : RunScenario) (cbs : Callbacks)
    (hc : cbs.onComplete = none ∨ cbs.onComplete = some .ok) :
    RunProps cbs (runModel sc cbs) := by
  unfold runModel
  cases sc.setupEnv with
  | exc m => exact runProps_of_tail cbs _ (tailProps_handleException cbs m)
  | kbint => exact runProps_of_tail cbs _ (tailProps_handleKI sc cbs false hc)
  | fatal => exact runProps_of_tail cbs _ (tailProps_raised cbs)
  | ok =>
    cases sc.loadLocustfile with
    | exc m => exact runProps_of_tail cbs _ (tailProps_handleException cbs m)
    | kbint => exact runProps_of_tail cbs _ (tailProps_handleKI sc cbs false hc)
    | fatal => exact runProps_of_tail cbs _ (tailProps_raised cbs)
    | ok =>
      cases sc.prepareArgs with
      | exc m => exact runProps_of_tail cbs _ (tailProps_handleException cbs m)
      | kbint => exact runProps_of_tail cbs _ (tailProps_handleKI sc cbs false hc)
      | fatal => exact runProps_of_tail cbs _ (tailProps_raised cbs)
      | ok =>
        cases sc.envConstruct with
        | exc m => exact runProps_of_tail cbs _ (tailProps_handleException cbs m)
        | kbint => exact runProps_of_tail cbs _ (tailProps_handleKI sc cbs false hc)
        | fatal => exact runProps_of_tail cbs _ (tailProps_raised cbs)
        | ok =>
          cases sc.createRunner with
          | exc m => exact runProps_of_tail cbs _ (tailProps_handleException cbs m)
          | kbint => exact runProps_of_tail cbs _ (tailProps_handleKI sc cbs false hc)
          | fatal => exact runProps_of_tail cbs _ (tailProps_raised cbs)
          | ok => exact runProps_startStage sc cbs hc

/-- C1 amended: provided the registered complete callback returns normally
(does not raise), every invocation of `run()` invokes at most one start
callback and at most one terminal callback (never both complete and
fail), and whenever `run()` returns normally with well-behaved complete
and fail callbacks registered, a terminal callback has been invoked
before the return.  (Without that proviso the counterexample applies:
a raising complete callback triggers the fail callback too.) -/
theorem run_single_delivery (sc : RunScenario) (cbs : Callbacks)
    (hc : cbs.onComplete = none ∨ cbs.onComplete = some .ok) :
    (runModel sc cbs).1.countP isStartEv ≤ 1 ∧
    (runModel sc cbs).1.countP isTerminalEv ≤ 1 ∧
    ¬((runModel sc cbs).1.any isCompleteEv = true ∧
      (runModel sc cbs).1.any isFailEv = true) ∧
    (cbs.onComplete = some .ok → cbs.onFail = some .ok →
      ∀ b, (runModel sc cbs).2 = .ret b →
        (runModel sc cbs).1.countP isTerminalEv = 1) :=
  runProps_runModel sc cbs hc

/-- C1 witness: the amended theorem at a concrete successful timed run. -/
theorem run_single_delivery_witness :
    (runModel
      { setupEnv := .ok, loadLocustfile := .ok, prepareArgs := .ok,
        envConstruct := .ok, createRunner := .ok, runnerStart := .ok,
        parseResult := .ok (some 30), waitPhase := .ok,
        quitAfterSleep := .ok, quitInKbHandler := .ok }
      { onStart := some .ok, onComplete := some .ok, onFail := some .ok
        }).1.countP isStartEv ≤ 1 ∧
    (runModel
      { setupEnv := .ok, loadLocustfile := .ok, prepareArgs := .ok,
        envConstruct := .ok, createRunner := .ok, runnerStart := .ok,
        parseResult := .ok (some 30), waitPhase := .ok,
        quitAfterSleep := .ok, quitInKbHandler := .ok }
      { onStart := some .ok, onComplete := some .ok, onFail := some .ok
        }).1.countP isTerminalEv ≤ 1 ∧
    ¬((runModel
      { setupEnv := .ok, loadLocustfile := .ok, prepareArgs := .ok,
        envConstruct := .ok, createRunner := .ok, runnerStart := .ok,
        parseResult := .ok (some 30), waitPhase := .ok,
        quitAfterSleep := .ok, quitInKbHandler := .ok }
      { onStart := some .ok, onComplete := some .ok, onFail := some .ok
        }).1.any isCompleteEv = true ∧
      (runModel
      { setupEnv := .ok, loadLocustfile := .ok, prepareArgs := .ok,
        envConstruct := .ok, createRunner := .ok, runnerStart := .ok,
        parseResult := .ok (some 30), waitPhase := .ok,
        quitAfterSleep := .ok, quitInKbHandler := .ok }
      { onStart := some .ok, onComplete := some .ok, onFail := some .ok
        }).1.any isFailEv = true) ∧
    (Callbacks.onComplete
      { onStart := some .ok, onComplete := some .ok, onFail := some .ok } =
        some .ok →
     Callbacks.onFail
      { onStart := some .ok, onComplete := some .ok, onFail := some .ok } =
        some .ok →
      ∀ b, (runModel
        { setupEnv := .ok, loadLocustfile := .ok, prepareArgs := .ok,
          envConstruct := .ok, createRunner := .ok, runnerStart := .ok,
          parseResult := .ok (some 30), waitPhase := .ok,
          quitAfterSleep := .ok, quitInKbHandler := .ok }
        { onStart := some .ok, onComplete := some .ok, onFail := some .ok
          }).2 = .ret b →
        (runModel
        { setupEnv := .ok, loadLocustfile := .ok, prepareArgs := .ok,
          envConstruct := .ok, createRunner := .ok, runnerStart := .ok,
          parseResult := .ok (some 30), waitPhase := .ok,
          quitAfterSleep := .ok, quitInKbHandler := .ok }
        { onStart := some .ok, onComplete := some .ok, onFail := some .ok
          }).1.countP isTerminalEv = 1) :=
  run_single_delivery
    { setupEnv := .ok, loadLocustfile := .ok, prepareArgs := .ok,
      envConstruct := .ok, createRunner := .ok, runnerStart := .ok,
      parseResult := .ok (some 30), waitPhase := .ok,
      quitAfterSleep := .ok, quitInKbHandler := .ok }
    { onStart := some .ok, onComplete := some .ok, onFail := some .ok }
    (Or.inr rfl)
